import Mathlib

/-!
Shallow embedding of the Bot Process Supervisor of the DSTG_Panel repository
(`backend/bot_manager.py` and the monitor loop of `backend/main.py`).

Modelling conventions:
* The Bot Record Store (`backend/database.py`) keeps one row per bot.
  `update_bot` performs partial updates and filters its keyword arguments
  through an allowlist that admits `status` and `pid` but none of the
  timestamp columns, so timestamps never change through the supervisor and
  are omitted from the record model.
* OS interaction is an oracle: a process table `Nat -> ProcQuery` describing
  what psutil reports for each pid, plus per-operation environments that fix
  the outcome of each fallible OS call (spawn polls, terminate/kill, CPU and
  memory reads).  Machine floats of the CPU cache are modelled as rationals.
* Fallible Python calls are modelled by explicit outcome data; a raised
  exception is an explicit environment branch, mirroring the try/except
  structure of the source.
-/

inductive BotStatus where
  | stopped
  | starting
  | installing
  | running
  | restarting
  | error_startup
  | error
deriving DecidableEq, Repr

/-- One row of the `bots` table, restricted to the fields the supervisor
reads or writes (`backend/database.py`, `update_bot` allowlist). -/
structure BotRecord where
  id : Nat
  status : BotStatus
  pid : Option Nat
  autoStart : Bool
  botDir : String
  startFile : String
deriving DecidableEq, Repr

/-- What psutil reports for one pid: `psutil.Process(pid)` raising
`NoSuchProcess`, operations raising `AccessDenied`, or a handle whose
`is_running()` and `status() == STATUS_ZOMBIE` answers are given. -/
inductive ProcQuery where
  | noSuchProcess
  | accessDenied
  | proc (isRunning : Bool) (isZombie : Bool)
deriving DecidableEq, Repr

/-- `bot_manager.is_process_running` (lines 300-307): true iff the handle
exists, `is_running()` holds and the status is not zombie; `NoSuchProcess`
and `AccessDenied` are caught and yield false. -/
def is_process_running (os : Nat → ProcQuery) (pid : Nat) : Bool :=
  match os pid with
  | .proc r z => r && !z
  | .noSuchProcess => false
  | .accessDenied => false

/-- Python truthiness of the stored `pid` column (`if bot['pid']:`):
`None` and `0` are falsy. -/
def pidTruthy : Option Nat → Bool
  | none => false
  | some p => p != 0

/-- The module-level `_cpu_percent_cache` dictionary, pid -> last percent. -/
def CpuCache := List (Nat × ℚ)
deriving DecidableEq, Repr

def cacheHas (c : CpuCache) (p : Nat) : Bool :=
  (List.any c fun e => e.1 == p)

def cacheGet (c : CpuCache) (p : Nat) : Option ℚ :=
  (List.find? (fun e => e.1 == p) c).map (fun e => e.2)

def cacheSet (c : CpuCache) (p : Nat) (v : ℚ) : CpuCache :=
  if cacheHas c p then List.map (fun e => if e.1 == p then (p, v) else e) c
  else (p, v) :: c

def cacheErase (c : CpuCache) (p : Nat) : CpuCache :=
  List.filter (fun e => e.1 != p) c

/-- Outcome of `install_dependencies`: success, failure return, or an
exception carrying a message. -/
inductive InstallOutcome where
  | ok
  | fail
  | raises (msg : String)
deriving DecidableEq, Repr

/-- Environment of one `start_bot` call: filesystem facts and the behaviour
of the spawned child.  `firstPoll` / `secondPoll` are the `process.poll()`
results after the 1.5s and 2.0s grace sleeps (`some code` = already exited
with that code).  `logContent` is what reading the log file back yields
(empty string when the read fails or the file is empty). -/
structure StartEnv where
  startFileExists : Bool
  hasRequirements : Bool
  install : InstallOutcome
  spawnPid : Nat
  firstPoll : Option Int
  secondPoll : Option Int
  logContent : String
deriving DecidableEq, Repr

/-- Result of `start_bot`: the returned pair, the record row after the call,
and how many OS processes were spawned during the call. -/
structure StartRes where
  ok : Bool
  msg : Option String
  record : Option BotRecord
  spawns : Nat
deriving DecidableEq, Repr

/-- Spawn phase of `start_bot` (lines 70-190): `Popen`, the 1.5s grace poll
(line 132), best-effort resource limits, the `running` record update (line
163), the 2.0s grace re-poll (line 166).  `bcur` is the record as left by
the status/install updates.  A first-window exit raises and is caught by the
handler at line 191, which sets `status='error_startup', pid=None`; a
second-window exit performs the rollback update of line 169. -/
def start_spawnPhase (bcur : BotRecord) (env : StartEnv) : StartRes :=
  match env.firstPoll with
  | some code =>
    let m :=
      if env.logContent ≠ "" then
        "Exit code " ++ toString code ++ "\n" ++ env.logContent.takeRight 2000
      else
        "Process exited immediately with code " ++ toString code ++
          ". Check logs in " ++ bcur.botDir ++ "/logs"
    ⟨false, some m,
      some { bcur with status := BotStatus.error_startup, pid := none }, 1⟩
  | none =>
    let brun : BotRecord :=
      { bcur with pid := some env.spawnPid, status := BotStatus.running }
    match env.secondPoll with
    | some code =>
      let m :=
        if env.logContent ≠ "" then
          "Process exited after startup (code " ++ toString code ++ "):\n" ++
            env.logContent.takeRight 2000
        else
          "Process exited after startup with code " ++ toString code ++
            ". Check logs in " ++ bcur.botDir ++ "/logs"
      ⟨false, some m,
        some { brun with pid := none, status := BotStatus.stopped }, 1⟩
    | none => ⟨true, none, some brun, 1⟩

/-- `bot_manager.start_bot` (lines 15-194).  The git-materialisation block
(lines 30-36) has no observable effect on record or return value and is
elided; `update_bot` keyword arguments are applied as partial record
updates (line 45 sets `starting` keeping the stored pid, line 50 sets
`installing`, lines 54/58 set `error_startup` WITHOUT touching the pid). -/
def start_bot (rec : Option BotRecord) (os : Nat → ProcQuery) (env : StartEnv) :
    StartRes :=
  match rec with
  | none => ⟨false, some "Бот не найден", none, 0⟩
  | some bot =>
    if bot.status = BotStatus.running ∧ pidTruthy bot.pid = true ∧
        is_process_running os (bot.pid.getD 0) = true then
      ⟨true, none, some bot, 0⟩
    else if env.startFileExists = false then
      ⟨false, some ("Стартовый файл не найден: " ++ bot.startFile), some bot, 0⟩
    else if env.hasRequirements then
      match env.install with
      | .ok => start_spawnPhase { bot with status := BotStatus.installing } env
      | .fail =>
        ⟨false, some "Не удалось установить зависимости из requirements.txt",
          some { bot with status := BotStatus.error_startup }, 0⟩
      | .raises m =>
        ⟨false, some ("Ошибка установки зависимостей: " ++ m),
          some { bot with status := BotStatus.error_startup }, 0⟩
    else start_spawnPhase { bot with status := BotStatus.starting } env

/-- How the termination sequence of `stop_bot` (lines 213-237) plays out:
`psutil.Process(pid)` may raise outside the inner try; inside the inner try a
`NoSuchProcess` is swallowed; `process.wait(timeout=5)` either returns or
times out, after which `process.kill()` is attempted; unexpected exceptions
reach the outer handler.  `aliveAfterKill` records whether the OS process in
fact survived the escalated kill - the source never re-checks this. -/
inductive TermOutcome where
  | exitedWithinWait
  | timeoutThenKill (killRaisesNoSuch : Bool) (aliveAfterKill : Bool)
  | noSuchAtLookup
  | noSuchInSequence
  | unexpectedInSequence
  | unexpectedAtKill (aliveAfterKill : Bool)
deriving DecidableEq, Repr

structure StopEnv where
  outcome : TermOutcome
  childCount : Nat
deriving DecidableEq, Repr

/-- Result of `stop_bot`: return value, record row after the call, cache
after the call, and the signals actually delivered (terminate to the main
process, kill to the main process, terminate to children). -/
structure StopRes where
  ret : Bool
  record : Option BotRecord
  cache : CpuCache
  termSignals : Nat
  killSignals : Nat
  childTermSignals : Nat
deriving DecidableEq, Repr

/-- The record update shared by every terminating path of `stop_bot` and by
the dead-process reconciliations: `update_bot(id, pid=None, status='stopped')`
(timestamp kwargs are filtered out by `update_bot`). -/
def markStopped (b : BotRecord) : BotRecord :=
  { b with pid := none, status := BotStatus.stopped }

/-- `bot_manager.stop_bot` (lines 196-256). -/
def stop_bot (rec : Option BotRecord) (os : Nat → ProcQuery) (env : StopEnv)
    (cache : CpuCache) : StopRes :=
  match rec with
  | none => ⟨false, none, cache, 0, 0, 0⟩
  | some bot =>
    if pidTruthy bot.pid = false then ⟨false, some bot, cache, 0, 0, 0⟩
    else
      let p := bot.pid.getD 0
      if is_process_running os p = false then
        ⟨true, some (markStopped bot), cacheErase cache p, 0, 0, 0⟩
      else
        match env.outcome with
        | .noSuchAtLookup =>
          ⟨false, some (markStopped bot), cacheErase cache p, 0, 0, 0⟩
        | .noSuchInSequence =>
          ⟨true, some (markStopped bot), cacheErase cache p, 0, 0, env.childCount⟩
        | .exitedWithinWait =>
          ⟨true, some (markStopped bot), cacheErase cache p, 1, 0, env.childCount⟩
        | .timeoutThenKill killRaisesNoSuch _ =>
          ⟨true, some (markStopped bot), cacheErase cache p, 1,
            (if killRaisesNoSuch then 0 else 1), env.childCount⟩
        | .unexpectedInSequence =>
          ⟨false, some (markStopped bot), cacheErase cache p, 0, 0, env.childCount⟩
        | .unexpectedAtKill _ =>
          ⟨false, some (markStopped bot), cacheErase cache p, 1, 0, env.childCount⟩

/-- Outcome of one non-priming `process.cpu_percent(interval=None)` call. -/
inductive CpuRead where
  | value (v : ℚ)
  | retNone
  | raises
deriving DecidableEq, Repr

/-- Environment of one `get_bot_process_info` call. -/
structure InfoEnv where
  procLookupRaises : Bool
  primeRaises : Bool
  cpuRead : CpuRead
  memRaises : Bool
  rssBytes : Nat
deriving DecidableEq, Repr

structure ProcInfo where
  pid : Nat
  cpu_percent : ℚ
  memory_mb : ℚ
  memory_bytes : Nat
deriving DecidableEq, Repr

structure InfoRes where
  info : Option ProcInfo
  record : Option BotRecord
  cache : CpuCache
deriving DecidableEq, Repr

/-- `bot_manager.get_bot_process_info` (lines 312-368), including the CPU
cache priming protocol and the `NoSuchProcess`/`AccessDenied` handler that
reconciles the record and evicts the cache entry. -/
def get_bot_process_info (rec : Option BotRecord) (os : Nat → ProcQuery)
    (env : InfoEnv) (cache : CpuCache) : InfoRes :=
  match rec with
  | none => ⟨none, none, cache⟩
  | some bot =>
    if pidTruthy bot.pid = false then ⟨none, some bot, cache⟩
    else
      let p := bot.pid.getD 0
      if is_process_running os p = false then
        ⟨none, some (markStopped bot), cacheErase cache p⟩
      else if env.procLookupRaises then
        ⟨none, some (markStopped bot), cacheErase cache p⟩
      else
        let cpuAndCache : ℚ × CpuCache :=
          if cacheHas cache p = false then
            if env.primeRaises then ((cacheGet cache p).getD 0, cache)
            else (0, cacheSet cache p 0)
          else
            match env.cpuRead with
            | .raises => ((cacheGet cache p).getD 0, cache)
            | .retNone => ((cacheGet cache p).getD 0, cache)
            | .value v => (v, cacheSet cache p v)
        if env.memRaises then
          ⟨none, some (markStopped bot), cacheErase cpuAndCache.2 p⟩
        else
          ⟨some ⟨p, cpuAndCache.1, (env.rssBytes : ℚ) / 1048576, env.rssBytes⟩,
            some bot, cpuAndCache.2⟩

/-- Per-bot step of one Crash Monitor tick (`backend/main.py`, `monitor_bots`
lines 1975-1991).  `updRaises i` injects an exception in the
`update_bot(id, pid=None, status='stopped')` call at line 1981 (it is NOT
inside the per-bot try, so it aborts the whole tick via the outer handler);
`startRaises i` injects an exception in the `start_bot` call (it IS inside
the per-bot try at lines 1983-1991, so the loop continues).  Returns the
bot's record after the step, the list of `start_bot` invocations made, and
whether the tick was aborted. -/
def tickStep (os : Nat → ProcQuery) (updRaises startRaises : Nat → Bool)
    (envf : Nat → StartEnv) (b : BotRecord) : BotRecord × List Nat × Bool :=
  if b.status = BotStatus.running ∧ pidTruthy b.pid = true ∧
      is_process_running os (b.pid.getD 0) = false then
    if updRaises b.id then (b, [], true)
    else
      let b1 := markStopped b
      if startRaises b.id then (b1, [b.id], false)
      else
        let r := start_bot (some b1) os (envf b.id)
        let b2 := r.record.getD b1
        if r.ok then (b2, [b.id], false)
        else ({ b2 with status := BotStatus.error }, [b.id], false)
  else (b, [], false)

/-- One full Crash Monitor tick over the `get_all_bots()` snapshot: bots are
processed in order; an abort (exception outside the per-bot try) leaves the
remaining bots untouched for this tick. -/
def monitor_tick (os : Nat → ProcQuery) (updRaises startRaises : Nat → Bool)
    (envf : Nat → StartEnv) : List BotRecord → List BotRecord × List Nat
  | [] => ([], [])
  | b :: rest =>
    match tickStep os updRaises startRaises envf b with
    | (b1, cs, true) => (b1 :: rest, cs)
    | (b1, cs, false) =>
      let r := monitor_tick os updRaises startRaises envf rest
      (b1 :: r.1, cs ++ r.2)

/-- One record of the reconcile loop of `restore_bot_states` (lines
421-431): a snapshot record showing `running` with a truthy pid and a dead
OS process is reconciled to `pid=None, status='stopped'`; any other record
is untouched (live ones only get best-effort resource limits). -/
def reconcileOne (os : Nat → ProcQuery) (b : BotRecord) : BotRecord :=
  if b.status = BotStatus.running ∧ pidTruthy b.pid = true ∧
      is_process_running os (b.pid.getD 0) = false then
    markStopped b
  else b

/-- First loop of `restore_bot_states` (lines 421-431). -/
def reconcilePhase (os : Nat → ProcQuery) (bots : List BotRecord) :
    List BotRecord :=
  bots.map (reconcileOne os)

/-- `get_bot(id)` against a record list: first row with that id. -/
def dbGet : List BotRecord → Nat → Option BotRecord
  | [], _ => none
  | b :: t, i => if b.id == i then some b else dbGet t i

/-- Writing the row with id `i`: every row carrying that id is replaced. -/
def dbSet : List BotRecord → Nat → BotRecord → List BotRecord
  | [], _, _ => []
  | b :: t, i, r => (if b.id == i then r else b) :: dbSet t i r

/-- One `start_bot(bot['id'])` call of the auto-start loop as seen by the
record store: `get_bot` re-fetches the current row with that id and the
resulting row is written back (a missing row is the source's
`"Бот не найден"` early return, which writes nothing). -/
def applyStart (os : Nat → ProcQuery) (envf : Nat → StartEnv)
    (db : List BotRecord) (i : Nat) : List BotRecord :=
  match dbGet db i with
  | none => db
  | some cur =>
    match (start_bot (some cur) os (envf i)).record with
    | none => db
    | some r1 => dbSet db i r1

/-- Second loop of `restore_bot_states` (lines 434-456): iterates the SAME
snapshot list the function fetched on entry, and auto-starts every snapshot
record with a truthy `auto_start` and snapshot status `stopped`; the
`start_bot` call re-fetches the current row.  `startRaises i` injects an
exception in `start_bot`, which the per-bot try at lines 447-456 catches.
Returns the final store and the ids for which `start_bot` was invoked. -/
def autostartPhase (os : Nat → ProcQuery) (startRaises : Nat → Bool)
    (envf : Nat → StartEnv) : List BotRecord → List BotRecord →
    List BotRecord × List Nat
  | [], db => (db, [])
  | b :: rest, db =>
    if b.autoStart = true ∧ b.status = BotStatus.stopped then
      let db1 :=
        if startRaises b.id then db else applyStart os envf db b.id
      let r := autostartPhase os startRaises envf rest db1
      (r.1, b.id :: r.2)
    else autostartPhase os startRaises envf rest db

/-- `bot_manager.restore_bot_states` (lines 412-456): reconcile loop over the
snapshot, then the auto-start loop over the same (now stale) snapshot. -/
def restore_bot_states (os : Nat → ProcQuery) (startRaises : Nat → Bool)
    (envf : Nat → StartEnv) (bots : List BotRecord) :
    List BotRecord × List Nat :=
  autostartPhase os startRaises envf bots (reconcilePhase os bots)

/-- The record invariant of the spec (section 3): a non-null pid is only
stored together with a transient-or-running status. -/
def pidInv (b : BotRecord) : Bool :=
  match b.pid with
  | none => true
  | some _ =>
    match b.status with
    | .starting => true
    | .installing => true
    | .running => true
    | _ => false

/-- The selection predicate of the Crash Monitor and the reconcile loop of
the Startup Restorer: recorded `running`, truthy pid, dead OS process. -/
def isDeadRunning (os : Nat → ProcQuery) (b : BotRecord) : Bool :=
  decide (b.status = BotStatus.running ∧ pidTruthy b.pid = true ∧
    is_process_running os (b.pid.getD 0) = false)

/-- The auto-start selection of `restore_bot_states` (lines 436-445):
truthy `auto_start` and snapshot status `stopped`. -/
def wantsAutostart (b : BotRecord) : Bool :=
  b.autoStart && (b.status == BotStatus.stopped)

theorem pidInv_markStopped (b : BotRecord) : pidInv (markStopped b) = true := rfl

/-- `start_bot` on an existing record always leaves an existing record with
the same id. -/
theorem start_record_some_id (b : BotRecord) (os : Nat → ProcQuery)
    (env : StartEnv) :
    ∃ r1, (start_bot (some b) os env).record = some r1 ∧ r1.id = b.id := by
  simp only [start_bot, start_spawnPhase]
  repeat' split
  all_goals exact ⟨_, rfl, rfl⟩

/-- Pid discipline of `start_bot` when the stored pid is null on entry:
either the call succeeded and the record holds the freshly spawned pid with
status `running`, or it failed and the pid is still null. -/
theorem start_record_of_pid_none (b : BotRecord) (os : Nat → ProcQuery)
    (env : StartEnv) (hpid : b.pid = none) :
    ∃ r1, (start_bot (some b) os env).record = some r1 ∧ r1.id = b.id ∧
      (((start_bot (some b) os env).ok = true ∧ r1.pid = some env.spawnPid ∧
          r1.status = BotStatus.running) ∨
       ((start_bot (some b) os env).ok = false ∧ r1.pid = none)) := by
  have hcond : ¬(b.status = BotStatus.running ∧ pidTruthy b.pid = true ∧
      is_process_running os (b.pid.getD 0) = true) := by
    rintro ⟨-, h2, -⟩
    rw [hpid] at h2
    simp [pidTruthy] at h2
  simp only [start_bot, start_spawnPhase, if_neg hcond]
  repeat' split
  all_goals first
    | exact ⟨_, rfl, rfl, Or.inl ⟨rfl, rfl, rfl⟩⟩
    | exact ⟨_, rfl, rfl, Or.inr ⟨rfl, hpid⟩⟩
    | exact ⟨_, rfl, rfl, Or.inr ⟨rfl, rfl⟩⟩

/-- Claim C1: `start(id)` is idempotent on a live bot.  If the stored status
is `running` and the stored pid refers to a live OS process, `start_bot`
returns `(true, none)` without spawning and without touching the record, and
a second call right after (under any environment) does the same, so two
calls in a row yield two successes and zero new OS processes. -/
theorem C1_start_idempotent_on_live_bot (b : BotRecord) (os : Nat → ProcQuery)
    (env1 env2 : StartEnv) (p : Nat) (hp : b.pid = some p) (h0 : p ≠ 0)
    (hs : b.status = BotStatus.running) (hl : is_process_running os p = true) :
    start_bot (some b) os env1 = ⟨true, none, some b, 0⟩ ∧
    start_bot (start_bot (some b) os env1).record os env2 =
      ⟨true, none, some b, 0⟩ := by
  have hcond : b.status = BotStatus.running ∧ pidTruthy b.pid = true ∧
      is_process_running os (b.pid.getD 0) = true := by
    refine ⟨hs, ?_, ?_⟩
    · rw [hp]; simp [pidTruthy, h0]
    · rw [hp]; exact hl
  have h1 : start_bot (some b) os env1 = ⟨true, none, some b, 0⟩ := by
    simp only [start_bot, if_pos hcond]
  have h2 : start_bot (some b) os env2 = ⟨true, none, some b, 0⟩ := by
    simp only [start_bot, if_pos hcond]
  exact ⟨h1, by rw [h1]; exact h2⟩

/-- Witness for C1 at a concrete live bot. -/
theorem C1_witness :
    start_bot (some ⟨1, BotStatus.running, some 9, false, "/bots/1", "main.py"⟩)
        (fun _ => ProcQuery.proc true false)
        ⟨true, false, InstallOutcome.ok, 42, none, none, ""⟩ =
      ⟨true, none,
        some ⟨1, BotStatus.running, some 9, false, "/bots/1", "main.py"⟩, 0⟩ ∧
    start_bot
        (start_bot (some ⟨1, BotStatus.running, some 9, false, "/bots/1", "main.py"⟩)
          (fun _ => ProcQuery.proc true false)
          ⟨true, false, InstallOutcome.ok, 42, none, none, ""⟩).record
        (fun _ => ProcQuery.proc true false)
        ⟨true, false, InstallOutcome.ok, 42, none, none, ""⟩ =
      ⟨true, none,
        some ⟨1, BotStatus.running, some 9, false, "/bots/1", "main.py"⟩, 0⟩ :=
  C1_start_idempotent_on_live_bot _ _ _ _ 9 rfl (by decide) rfl rfl

/-- Claim C7: `stop(id)` on a record whose pid is set but whose OS process
no longer exists returns true, clears the pid, sets status `stopped`, evicts
the CPU cache entry, and delivers no terminate or kill signal to any
process. -/
theorem C7_stop_dead_process_noop_success (b : BotRecord) (os : Nat → ProcQuery)
    (env : StopEnv) (cache : CpuCache) (p : Nat) (hp : b.pid = some p)
    (h0 : p ≠ 0) (hdead : is_process_running os p = false) :
    stop_bot (some b) os env cache =
      ⟨true, some (markStopped b), cacheErase cache p, 0, 0, 0⟩ := by
  have ht : pidTruthy b.pid = true := by rw [hp]; simp [pidTruthy, h0]
  have hgd : b.pid.getD 0 = p := by rw [hp]; rfl
  simp only [stop_bot, ht, hgd, hdead]
  simp

/-- Witness for C7 at a concrete dead-process stop. -/
theorem C7_witness :
    stop_bot (some ⟨1, BotStatus.running, some 9, false, "/bots/1", "main.py"⟩)
        (fun _ => ProcQuery.noSuchProcess) ⟨TermOutcome.exitedWithinWait, 2⟩
        [(9, (5 : ℚ))] =
      ⟨true, some (markStopped ⟨1, BotStatus.running, some 9, false, "/bots/1", "main.py"⟩),
        cacheErase [(9, (5 : ℚ))] 9, 0, 0, 0⟩ :=
  C7_stop_dead_process_noop_success _ _ _ _ 9 rfl (by decide) rfl

/-- Claim C2 counterexample: a record showing `running` with a stale dead
pid whose dependency install fails ends the `start` call with status
`error_startup` while the pid column still holds the stale pid, violating
the invariant `pid != null implies status in {starting, installing,
running}`; the install-failure transition does not clear the pid. -/
theorem C2_cex_install_failure_keeps_stale_pid :
    (start_bot (some ⟨1, BotStatus.running, some 9, false, "/bots/1", "main.py"⟩)
        (fun _ => ProcQuery.noSuchProcess)
        ⟨true, true, InstallOutcome.fail, 42, none, none, ""⟩).record =
      some ⟨1, BotStatus.error_startup, some 9, false, "/bots/1", "main.py"⟩ ∧
    pidInv ⟨1, BotStatus.error_startup, some 9, false, "/bots/1", "main.py"⟩ = false := by
  exact ⟨by decide, by decide⟩

/-- Claim C3 counterexample: a crash inside the SECOND grace window leaves
the record with status `stopped`, not `error_startup` (line 169 of
`bot_manager.py` rolls the record back to `stopped`), refuting the claim
that both grace windows leave `error_startup`. -/
theorem C3_cex_second_window_leaves_stopped :
    (start_bot (some ⟨1, BotStatus.stopped, none, false, "/b", "m.py"⟩)
        (fun _ => ProcQuery.proc true false)
        ⟨true, false, InstallOutcome.ok, 42, none, some 1, ""⟩) =
      ⟨false, some "Process exited after startup with code 1. Check logs in /b/logs",
        some ⟨1, BotStatus.stopped, none, false, "/b", "m.py"⟩, 1⟩ ∧
    BotStatus.stopped ≠ BotStatus.error_startup := by
  exact ⟨by decide, by decide⟩


/-- When the idempotent-start check does not fire, the start file exists and
dependency installation does not fail, `start_bot` proceeds to the spawn
phase (with status `installing` if a requirements manifest exists, else
`starting`). -/
theorem start_reaches_spawnPhase (b : BotRecord) (os : Nat → ProcQuery)
    (env : StartEnv)
    (hno : ¬(b.status = BotStatus.running ∧ pidTruthy b.pid = true ∧
        is_process_running os (b.pid.getD 0) = true))
    (hfile : env.startFileExists = true)
    (hinst : env.hasRequirements = false ∨ env.install = InstallOutcome.ok) :
    start_bot (some b) os env =
      start_spawnPhase { b with status := BotStatus.installing } env ∨
    start_bot (some b) os env =
      start_spawnPhase { b with status := BotStatus.starting } env := by
  have hfile2 : ¬(env.startFileExists = false) := by rw [hfile]; simp
  rcases hinst with hreq | hok
  · right
    have hreq2 : ¬(env.hasRequirements = true) := by rw [hreq]; simp
    simp only [start_bot, if_neg hno, if_neg hfile2, if_neg hreq2]
  · by_cases hreq : env.hasRequirements = true
    · left
      simp only [start_bot, if_neg hno, if_neg hfile2, if_pos hreq, hok]
    · right
      simp only [start_bot, if_neg hno, if_neg hfile2, if_neg hreq]

/-- First-grace-window exit: the spawn phase fails with the exit code and
the last 2000 characters of the log in the message, recording
`error_startup` and a null pid. -/
theorem start_spawnPhase_first_window (bcur : BotRecord) (env : StartEnv)
    (code : Int) (hpoll : env.firstPoll = some code)
    (hlog : env.logContent ≠ "") :
    start_spawnPhase bcur env =
      ⟨false, some ("Exit code " ++ toString code ++ "\n" ++
          env.logContent.takeRight 2000),
        some { bcur with status := BotStatus.error_startup, pid := none }, 1⟩ := by
  simp only [start_spawnPhase, hpoll, if_pos hlog]

/-- Second-grace-window exit: the spawn phase fails with the exit code and
log tail in the message, rolling the record back to `stopped` with a null
pid. -/
theorem start_spawnPhase_second_window (bcur : BotRecord) (env : StartEnv)
    (code : Int) (hpoll1 : env.firstPoll = none)
    (hpoll2 : env.secondPoll = some code) (hlog : env.logContent ≠ "") :
    start_spawnPhase bcur env =
      ⟨false, some ("Process exited after startup (code " ++ toString code ++
          "):\n" ++ env.logContent.takeRight 2000),
        some { bcur with status := BotStatus.stopped, pid := none }, 1⟩ := by
  simp only [start_spawnPhase, hpoll1, hpoll2, if_pos hlog]

/-- Claim C3, amended: a crash in the FIRST grace window aborts the start
with `(false, message)` carrying the exit code and the last 2000 characters
of the log and leaves `status = error_startup`, `pid = null`; a crash in
the SECOND grace window also returns `(false, message)` with the exit code
and log tail, but rolls the record back to `status = stopped` (not
`error_startup`), `pid = null`.  Hypotheses: the call is not the idempotent
no-op, the start file exists, installation does not fail, and the log file
is non-empty (it always holds at least the start banner of line 117). -/
theorem C3_grace_window_crash_amended (b : BotRecord) (os : Nat → ProcQuery)
    (env : StartEnv)
    (hno : ¬(b.status = BotStatus.running ∧ pidTruthy b.pid = true ∧
        is_process_running os (b.pid.getD 0) = true))
    (hfile : env.startFileExists = true)
    (hinst : env.hasRequirements = false ∨ env.install = InstallOutcome.ok)
    (hlog : env.logContent ≠ "") :
    (∀ code, env.firstPoll = some code →
      (start_bot (some b) os env).ok = false ∧
      (start_bot (some b) os env).msg =
        some ("Exit code " ++ toString code ++ "\n" ++
          env.logContent.takeRight 2000) ∧
      ((start_bot (some b) os env).record.map BotRecord.status) =
        some BotStatus.error_startup ∧
      ((start_bot (some b) os env).record.map BotRecord.pid) = some none) ∧
    (∀ code, env.firstPoll = none → env.secondPoll = some code →
      (start_bot (some b) os env).ok = false ∧
      (start_bot (some b) os env).msg =
        some ("Process exited after startup (code " ++ toString code ++
          "):\n" ++ env.logContent.takeRight 2000) ∧
      ((start_bot (some b) os env).record.map BotRecord.status) =
        some BotStatus.stopped ∧
      ((start_bot (some b) os env).record.map BotRecord.pid) = some none) := by
  constructor
  · intro code hpoll
    rcases start_reaches_spawnPhase b os env hno hfile hinst with heq | heq <;>
      rw [heq, start_spawnPhase_first_window _ env code hpoll hlog] <;>
      exact ⟨rfl, rfl, rfl, rfl⟩
  · intro code hpoll1 hpoll2
    rcases start_reaches_spawnPhase b os env hno hfile hinst with heq | heq <;>
      rw [heq, start_spawnPhase_second_window _ env code hpoll1 hpoll2 hlog] <;>
      exact ⟨rfl, rfl, rfl, rfl⟩

/-- Witness for the amended C3 at a concrete first-window crash. -/
theorem C3_witness :
    (start_bot (some ⟨1, BotStatus.stopped, none, false, "/b", "m.py"⟩)
        (fun _ => ProcQuery.proc true false)
        ⟨true, false, InstallOutcome.ok, 42, some 2, none, "boom"⟩).ok = false ∧
    (start_bot (some ⟨1, BotStatus.stopped, none, false, "/b", "m.py"⟩)
        (fun _ => ProcQuery.proc true false)
        ⟨true, false, InstallOutcome.ok, 42, some 2, none, "boom"⟩).msg =
      some ("Exit code " ++ toString (2 : Int) ++ "\n" ++
        "boom".takeRight 2000) ∧
    ((start_bot (some ⟨1, BotStatus.stopped, none, false, "/b", "m.py"⟩)
        (fun _ => ProcQuery.proc true false)
        ⟨true, false, InstallOutcome.ok, 42, some 2, none, "boom"⟩).record.map
      BotRecord.status) = some BotStatus.error_startup ∧
    ((start_bot (some ⟨1, BotStatus.stopped, none, false, "/b", "m.py"⟩)
        (fun _ => ProcQuery.proc true false)
        ⟨true, false, InstallOutcome.ok, 42, some 2, none, "boom"⟩).record.map
      BotRecord.pid) = some none :=
  (C3_grace_window_crash_amended _ _ _ (by decide) rfl (Or.inl rfl)
    (by decide)).1 2 rfl

/-- Claim C6 counterexample: when the process does not exit within the
5-second wait and survives even the escalated kill
(`timeoutThenKill` with `aliveAfterKill = true`), `stop_bot` returns TRUE,
not false: after `process.kill()` the source never re-checks liveness and
falls through to the success path (lines 230-247), refuting the claim that
stop returns false in this situation. -/
theorem C6_cex_kill_survivor_returns_true :
    stop_bot (some ⟨1, BotStatus.running, some 9, false, "/bots/1", "main.py"⟩)
        (fun _ => ProcQuery.proc true false)
        ⟨TermOutcome.timeoutThenKill false true, 0⟩ [] =
      ⟨true, some (markStopped ⟨1, BotStatus.running, some 9, false, "/bots/1", "main.py"⟩),
        [], 1, 1, 0⟩ ∧
    (stop_bot (some ⟨1, BotStatus.running, some 9, false, "/bots/1", "main.py"⟩)
        (fun _ => ProcQuery.proc true false)
        ⟨TermOutcome.timeoutThenKill false true, 0⟩ []).ret ≠ false := by
  exact ⟨by decide, by decide⟩

/-- Claim C6, amended: when the 5-second wait times out, `stop_bot` sends
the escalated kill and returns TRUE without verifying that the process
died; it returns false only when an unexpected exception escapes the
termination sequence (including a vanished handle at lookup), and in every
such path the record is still force-reconciled to `pid = null`,
`status = stopped` and the CPU cache entry for the pid is evicted. -/
theorem C6_stop_termination_amended (b : BotRecord) (os : Nat → ProcQuery)
    (env : StopEnv) (cache : CpuCache) (p : Nat) (hp : b.pid = some p)
    (h0 : p ≠ 0) (halive : is_process_running os p = true) :
    (∀ krn alive, env.outcome = TermOutcome.timeoutThenKill krn alive →
      stop_bot (some b) os env cache =
        ⟨true, some (markStopped b), cacheErase cache p, 1,
          (if krn then 0 else 1), env.childCount⟩) ∧
    (∀ alive, env.outcome = TermOutcome.unexpectedAtKill alive →
      stop_bot (some b) os env cache =
        ⟨false, some (markStopped b), cacheErase cache p, 1, 0,
          env.childCount⟩) ∧
    (env.outcome = TermOutcome.unexpectedInSequence →
      stop_bot (some b) os env cache =
        ⟨false, some (markStopped b), cacheErase cache p, 0, 0,
          env.childCount⟩) ∧
    (env.outcome = TermOutcome.noSuchAtLookup →
      stop_bot (some b) os env cache =
        ⟨false, some (markStopped b), cacheErase cache p, 0, 0, 0⟩) := by
  have ht : ¬(pidTruthy b.pid = false) := by
    rw [hp]; simp [pidTruthy, h0]
  have hgd : b.pid.getD 0 = p := by rw [hp]; rfl
  have hal : ¬(is_process_running os p = false) := by
    rw [halive]; simp
  refine ⟨?_, ?_, ?_, ?_⟩
  · intro krn alive ho
    simp only [stop_bot, if_neg ht, if_neg hal, ho, hgd]
  · intro alive ho
    simp only [stop_bot, if_neg ht, if_neg hal, ho, hgd]
  · intro ho
    simp only [stop_bot, if_neg ht, if_neg hal, ho, hgd]
  · intro ho
    simp only [stop_bot, if_neg ht, if_neg hal, ho, hgd]

/-- Witness for the amended C6 at a concrete timed-out stop whose victim
survives the kill. -/
theorem C6_witness :
    stop_bot (some ⟨1, BotStatus.running, some 9, false, "/bots/1", "main.py"⟩)
        (fun _ => ProcQuery.proc true false)
        ⟨TermOutcome.timeoutThenKill true true, 3⟩ [(9, (5 : ℚ))] =
      ⟨true, some (markStopped ⟨1, BotStatus.running, some 9, false, "/bots/1", "main.py"⟩),
        cacheErase [(9, (5 : ℚ))] 9, 1, 0, 3⟩ := by
  have h := (C6_stop_termination_amended
    ⟨1, BotStatus.running, some 9, false, "/bots/1", "main.py"⟩
    (fun _ => ProcQuery.proc true false) ⟨TermOutcome.timeoutThenKill true true, 3⟩
    [(9, (5 : ℚ))] 9 rfl (by decide) rfl).1 true true rfl
  simpa using h

theorem cacheGet_none_of_not_has (c : CpuCache) (p : Nat)
    (h : cacheHas c p = false) : cacheGet c p = none := by
  unfold cacheHas at h
  rw [List.any_eq_false] at h
  unfold cacheGet
  rw [List.find?_eq_none.mpr]
  · rfl
  · exact h

theorem cacheHas_erase (c : CpuCache) (p : Nat) :
    cacheHas (cacheErase c p) p = false := by
  unfold cacheHas cacheErase
  rw [List.any_eq_false]
  intro e he hbeq
  rcases List.mem_filter.mp he with ⟨-, hne⟩
  simp only [bne_iff_ne, ne_eq] at hne
  exact hne (by simpa using hbeq)

/-- Claim C9 counterexample: the first status query for a pid whose priming
`cpu_percent` call raises returns `cpuPercent = 0.0` but creates NO cache
entry (the assignment at line 339 is skipped when the handler at line 350
fires), refuting the claim that the first query always creates a cache
entry. -/
theorem C9_cex_prime_raise_creates_no_entry :
    ((get_bot_process_info
        (some ⟨1, BotStatus.running, some 9, false, "/bots/1", "main.py"⟩)
        (fun _ => ProcQuery.proc true false)
        ⟨false, true, CpuRead.retNone, false, 2097152⟩ []).info.map
      ProcInfo.cpu_percent) = some 0 ∧
    (get_bot_process_info
        (some ⟨1, BotStatus.running, some 9, false, "/bots/1", "main.py"⟩)
        (fun _ => ProcQuery.proc true false)
        ⟨false, true, CpuRead.retNone, false, 2097152⟩ []).cache = [] ∧
    cacheHas
      (get_bot_process_info
        (some ⟨1, BotStatus.running, some 9, false, "/bots/1", "main.py"⟩)
        (fun _ => ProcQuery.proc true false)
        ⟨false, true, CpuRead.retNone, false, 2097152⟩ []).cache 9 = false := by
  exact ⟨by decide, by decide, by decide⟩

/-- Claim C9, amended: CPU sampling follows the priming protocol, except
that a first query whose priming read raises returns 0.0 WITHOUT creating a
cache entry.  In detail, for a live pid: (a) a first query whose priming
read succeeds returns 0.0 and creates the cache entry; (b) a subsequent
query whose read yields a value returns that fresh value and updates the
cache; (c) a subsequent query whose read raises or yields none returns the
cached value and leaves the cache unchanged; (d) after `stop(id)` the cache
entry for the stored pid no longer exists. -/
theorem C9_cpu_cache_amended (b : BotRecord) (os : Nat → ProcQuery)
    (env : InfoEnv) (cache : CpuCache) (p : Nat) (hp : b.pid = some p)
    (h0 : p ≠ 0) (halive : is_process_running os p = true)
    (hlook : env.procLookupRaises = false) (hmem : env.memRaises = false) :
    (cacheHas cache p = false → env.primeRaises = false →
      get_bot_process_info (some b) os env cache =
        ⟨some ⟨p, 0, (env.rssBytes : ℚ) / 1048576, env.rssBytes⟩, some b,
          cacheSet cache p 0⟩) ∧
    (cacheHas cache p = false → env.primeRaises = true →
      get_bot_process_info (some b) os env cache =
        ⟨some ⟨p, 0, (env.rssBytes : ℚ) / 1048576, env.rssBytes⟩, some b,
          cache⟩) ∧
    (∀ v, cacheHas cache p = true → env.cpuRead = CpuRead.value v →
      get_bot_process_info (some b) os env cache =
        ⟨some ⟨p, v, (env.rssBytes : ℚ) / 1048576, env.rssBytes⟩, some b,
          cacheSet cache p v⟩) ∧
    (cacheHas cache p = true →
      env.cpuRead = CpuRead.raises ∨ env.cpuRead = CpuRead.retNone →
      get_bot_process_info (some b) os env cache =
        ⟨some ⟨p, (cacheGet cache p).getD 0, (env.rssBytes : ℚ) / 1048576,
          env.rssBytes⟩, some b, cache⟩) ∧
    (∀ senv scache, cacheHas (stop_bot (some b) os senv scache).cache p = false) := by
  have ht : ¬(pidTruthy b.pid = false) := by
    rw [hp]; simp [pidTruthy, h0]
  have hgd : b.pid.getD 0 = p := by rw [hp]; rfl
  have hal : ¬(is_process_running os p = false) := by rw [halive]; simp
  have hlook2 : ¬(env.procLookupRaises = true) := by rw [hlook]; simp
  have hmem2 : ¬(env.memRaises = true) := by rw [hmem]; simp
  refine ⟨?_, ?_, ?_, ?_, ?_⟩
  · intro hhas hprime
    have hprime2 : ¬(env.primeRaises = true) := by rw [hprime]; simp
    simp only [get_bot_process_info, if_neg ht, hgd, if_neg hal, if_neg hlook2,
      hhas, if_neg hprime2, if_neg hmem2, ite_true, ite_false]
  · intro hhas hprime
    have hget : cacheGet cache p = none := cacheGet_none_of_not_has cache p hhas
    simp only [get_bot_process_info, if_neg ht, hgd, if_neg hal, if_neg hlook2,
      hhas, hprime, if_neg hmem2, hget, Option.getD_none, ite_true, ite_false]
  · intro v hhas hread
    have hhas2 : ¬(cacheHas cache p = false) := by rw [hhas]; simp
    simp only [get_bot_process_info, if_neg ht, hgd, if_neg hal, if_neg hlook2,
      if_neg hhas2, hread, if_neg hmem2, ite_true, ite_false]
  · intro hhas hread
    have hhas2 : ¬(cacheHas cache p = false) := by rw [hhas]; simp
    rcases hread with hr | hr <;>
      simp only [get_bot_process_info, if_neg ht, hgd, if_neg hal,
        if_neg hlook2, if_neg hhas2, hr, if_neg hmem2, ite_true, ite_false]
  · intro senv scache
    have halF : ¬(is_process_running os p = false) := hal
    by_cases hd : is_process_running os p = false
    · exact absurd hd halF
    · simp only [stop_bot, if_neg ht, hgd, if_neg hd]
      cases senv.outcome <;> simp only [] <;> exact cacheHas_erase scache p

/-- Witness for the amended C9: a concrete successful priming query. -/
theorem C9_witness :
    get_bot_process_info
        (some ⟨1, BotStatus.running, some 9, false, "/bots/1", "main.py"⟩)
        (fun _ => ProcQuery.proc true false)
        ⟨false, false, CpuRead.value 37, false, 2097152⟩ [] =
      ⟨some ⟨9, 0, ((2097152 : ℕ) : ℚ) / 1048576, 2097152⟩,
        some ⟨1, BotStatus.running, some 9, false, "/bots/1", "main.py"⟩,
        cacheSet [] 9 0⟩ :=
  (C9_cpu_cache_amended
    ⟨1, BotStatus.running, some 9, false, "/bots/1", "main.py"⟩
    (fun _ => ProcQuery.proc true false)
    ⟨false, false, CpuRead.value 37, false, 2097152⟩ [] 9 rfl (by decide)
    rfl rfl rfl).1 rfl rfl

/-- Every supervisor operation consumes the process table only through
`is_process_running`: `start_bot` under two tables with identical liveness
answers behaves identically. -/
theorem start_bot_cong (os1 os2 : Nat → ProcQuery)
    (h : ∀ r, is_process_running os1 r = is_process_running os2 r)
    (rec : Option BotRecord) (env : StartEnv) :
    start_bot rec os1 env = start_bot rec os2 env := by
  cases rec with
  | none => rfl
  | some b => simp only [start_bot, h]

theorem stop_bot_cong (os1 os2 : Nat → ProcQuery)
    (h : ∀ r, is_process_running os1 r = is_process_running os2 r)
    (rec : Option BotRecord) (env : StopEnv) (cache : CpuCache) :
    stop_bot rec os1 env cache = stop_bot rec os2 env cache := by
  cases rec with
  | none => rfl
  | some b => simp only [stop_bot, h]

theorem get_bot_process_info_cong (os1 os2 : Nat → ProcQuery)
    (h : ∀ r, is_process_running os1 r = is_process_running os2 r)
    (rec : Option BotRecord) (env : InfoEnv) (cache : CpuCache) :
    get_bot_process_info rec os1 env cache =
      get_bot_process_info rec os2 env cache := by
  cases rec with
  | none => rfl
  | some b => simp only [get_bot_process_info, h]

theorem tickStep_cong (os1 os2 : Nat → ProcQuery)
    (h : ∀ r, is_process_running os1 r = is_process_running os2 r)
    (upd sr : Nat → Bool) (envf : Nat → StartEnv) (b : BotRecord) :
    tickStep os1 upd sr envf b = tickStep os2 upd sr envf b := by
  simp only [tickStep, h, start_bot_cong os1 os2 h]

theorem monitor_tick_cong (os1 os2 : Nat → ProcQuery)
    (h : ∀ r, is_process_running os1 r = is_process_running os2 r)
    (upd sr : Nat → Bool) (envf : Nat → StartEnv) :
    ∀ bots, monitor_tick os1 upd sr envf bots = monitor_tick os2 upd sr envf bots
  | [] => rfl
  | b :: rest => by
    simp only [monitor_tick, tickStep_cong os1 os2 h upd sr envf b,
      monitor_tick_cong os1 os2 h upd sr envf rest]

/-- Claim C10: `is_process_running` answers false for a zombie process, an
`AccessDenied` process and a nonexistent process alike, and consequently
`start_bot` (hence its idempotent-start check), `stop_bot`,
`get_bot_process_info` and the crash-monitor tick behave, for a pid in any
of those three states, exactly as they do when the pid does not exist. -/
theorem C10_liveness_predicate_uniform (os : Nat → ProcQuery) (p : Nat)
    (q : ProcQuery)
    (hq : q = ProcQuery.proc true true ∨ q = ProcQuery.accessDenied ∨
      q = ProcQuery.noSuchProcess) :
    is_process_running (Function.update os p q) p = false ∧
    (∀ rec env, start_bot rec (Function.update os p q) env =
      start_bot rec (Function.update os p ProcQuery.noSuchProcess) env) ∧
    (∀ rec env cache, stop_bot rec (Function.update os p q) env cache =
      stop_bot rec (Function.update os p ProcQuery.noSuchProcess) env cache) ∧
    (∀ rec env cache,
      get_bot_process_info rec (Function.update os p q) env cache =
      get_bot_process_info rec (Function.update os p ProcQuery.noSuchProcess)
        env cache) ∧
    (∀ upd sr envf bots,
      monitor_tick (Function.update os p q) upd sr envf bots =
      monitor_tick (Function.update os p ProcQuery.noSuchProcess) upd sr envf
        bots) := by
  have hfalse : is_process_running (Function.update os p q) p = false := by
    unfold is_process_running
    rw [Function.update_same]
    rcases hq with hq | hq | hq <;> subst hq <;> rfl
  have hpt : ∀ r, is_process_running (Function.update os p q) r =
      is_process_running (Function.update os p ProcQuery.noSuchProcess) r := by
    intro r
    by_cases hr : r = p
    · subst hr
      rw [hfalse]
      unfold is_process_running
      rw [Function.update_same]
    · unfold is_process_running
      rw [Function.update_noteq hr, Function.update_noteq hr]
  exact ⟨hfalse, fun rec env => start_bot_cong _ _ hpt rec env,
    fun rec env cache => stop_bot_cong _ _ hpt rec env cache,
    fun rec env cache => get_bot_process_info_cong _ _ hpt rec env cache,
    fun upd sr envf bots => monitor_tick_cong _ _ hpt upd sr envf bots⟩

/-- Witness for C10: an `AccessDenied` pid behaves like a nonexistent one
for each operation at concrete inputs. -/
theorem C10_witness :
    is_process_running
      (Function.update (fun _ => ProcQuery.proc true false) 5
        ProcQuery.accessDenied) 5 = false ∧
    start_bot (some ⟨1, BotStatus.running, some 5, false, "/bots/1", "main.py"⟩)
      (Function.update (fun _ => ProcQuery.proc true false) 5
        ProcQuery.accessDenied)
      ⟨true, false, InstallOutcome.ok, 42, none, none, ""⟩ =
    start_bot (some ⟨1, BotStatus.running, some 5, false, "/bots/1", "main.py"⟩)
      (Function.update (fun _ => ProcQuery.proc true false) 5
        ProcQuery.noSuchProcess)
      ⟨true, false, InstallOutcome.ok, 42, none, none, ""⟩ ∧
    stop_bot (some ⟨1, BotStatus.running, some 5, false, "/bots/1", "main.py"⟩)
      (Function.update (fun _ => ProcQuery.proc true false) 5
        ProcQuery.accessDenied)
      ⟨TermOutcome.exitedWithinWait, 0⟩ [] =
    stop_bot (some ⟨1, BotStatus.running, some 5, false, "/bots/1", "main.py"⟩)
      (Function.update (fun _ => ProcQuery.proc true false) 5
        ProcQuery.noSuchProcess)
      ⟨TermOutcome.exitedWithinWait, 0⟩ [] ∧
    monitor_tick
      (Function.update (fun _ => ProcQuery.proc true false) 5
        ProcQuery.accessDenied) (fun _ => false) (fun _ => false)
      (fun _ => ⟨true, false, InstallOutcome.ok, 42, none, none, ""⟩)
      [⟨1, BotStatus.running, some 5, false, "/bots/1", "main.py"⟩] =
    monitor_tick
      (Function.update (fun _ => ProcQuery.proc true false) 5
        ProcQuery.noSuchProcess) (fun _ => false) (fun _ => false)
      (fun _ => ⟨true, false, InstallOutcome.ok, 42, none, none, ""⟩)
      [⟨1, BotStatus.running, some 5, false, "/bots/1", "main.py"⟩] := by
  have H := C10_liveness_predicate_uniform (fun _ => ProcQuery.proc true false)
    5 ProcQuery.accessDenied (Or.inr (Or.inl rfl))
  exact ⟨H.1, H.2.1 _ _, H.2.2.1 _ _ _, H.2.2.2.2 _ _ _ _⟩

theorem pidInv_true_iff (b : BotRecord) :
    pidInv b = true ↔ (b.pid = none ∨ b.status = BotStatus.starting ∨
      b.status = BotStatus.installing ∨ b.status = BotStatus.running) := by
  rcases b with ⟨i, st, pid, au, bd, sf⟩
  cases pid <;> cases st <;> simp [pidInv]

theorem pid_none_of_stopped_inv (b : BotRecord) (hb : pidInv b = true)
    (hs : b.status = BotStatus.stopped) : b.pid = none := by
  rcases (pidInv_true_iff b).mp hb with h | h | h | h
  · exact h
  all_goals rw [hs] at h; cases h

/-- `start_bot` preserves the pid/status invariant provided it is not
entered with a stale non-null pid: either the stored pid is null, or the
record is a live `running` one (idempotent no-op). -/
theorem start_preserves_pidInv (b : BotRecord) (os : Nat → ProcQuery)
    (env : StartEnv) (r1 : BotRecord) (hb : pidInv b = true)
    (hc : b.pid = none ∨ (b.status = BotStatus.running ∧
      pidTruthy b.pid = true ∧ is_process_running os (b.pid.getD 0) = true))
    (hr : (start_bot (some b) os env).record = some r1) : pidInv r1 = true := by
  rcases hc with hpid | hcond
  · rcases start_record_of_pid_none b os env hpid with ⟨r2, hr2, -, hcase⟩
    rw [hr2] at hr
    injection hr with hr
    subst hr
    rcases hcase with ⟨-, hpid2, hst2⟩ | ⟨-, hpid2⟩
    · exact (pidInv_true_iff _).mpr (Or.inr (Or.inr (Or.inr hst2)))
    · exact (pidInv_true_iff _).mpr (Or.inl hpid2)
  · have : start_bot (some b) os env = ⟨true, none, some b, 0⟩ := by
      simp only [start_bot, if_pos hcond]
    rw [this] at hr
    injection hr with hr
    subst hr
    exact hb

/-- The record after `stop_bot` on an existing row is either the row
unchanged or the row reconciled to `pid = null, status = stopped`. -/
theorem stop_record_cases (b : BotRecord) (os : Nat → ProcQuery)
    (env : StopEnv) (cache : CpuCache) :
    (stop_bot (some b) os env cache).record = some b ∨
    (stop_bot (some b) os env cache).record = some (markStopped b) := by
  simp only [stop_bot]
  repeat' split
  all_goals first | exact Or.inl rfl | exact Or.inr rfl

/-- The record after `get_bot_process_info` on an existing row is either the
row unchanged or the row reconciled to `pid = null, status = stopped`. -/
theorem info_record_cases (b : BotRecord) (os : Nat → ProcQuery)
    (env : InfoEnv) (cache : CpuCache) :
    (get_bot_process_info (some b) os env cache).record = some b ∨
    (get_bot_process_info (some b) os env cache).record = some (markStopped b) := by
  simp only [get_bot_process_info]
  repeat' split
  all_goals first | exact Or.inl rfl | exact Or.inr rfl

theorem pidInv_markStopped_bool (b : BotRecord) :
    pidInv (markStopped b) = true := rfl

/-- One monitor step never violates the pid/status invariant. -/
theorem tickStep_pidInv (os : Nat → ProcQuery) (upd sr : Nat → Bool)
    (envf : Nat → StartEnv) (b : BotRecord) (hb : pidInv b = true) :
    pidInv (tickStep os upd sr envf b).1 = true := by
  unfold tickStep
  split
  · split
    · exact hb
    · split
      · exact pidInv_markStopped_bool b
      · rcases start_record_of_pid_none (markStopped b) os (envf b.id) rfl with
          ⟨r2, hr2, -, hcase⟩
        rcases hcase with ⟨hok, hpid2, hst2⟩ | ⟨hok, hpid2⟩
        · simp only [hr2, Option.getD_some, hok, if_pos rfl]
          exact (pidInv_true_iff r2).mpr (Or.inr (Or.inr (Or.inr hst2)))
        · have hok2 : ¬((start_bot (some (markStopped b)) os (envf b.id)).ok = true) := by
            rw [hok]; simp
          simp only [hr2, Option.getD_some, if_neg hok2]
          exact (pidInv_true_iff _).mpr (Or.inl hpid2)
  · exact hb

/-- With no injected `update_bot` exception, a monitor step never aborts the
tick, and it invokes `start_bot` exactly for the dead-running records. -/
theorem tickStep_no_abort (os : Nat → ProcQuery) (sr : Nat → Bool)
    (envf : Nat → StartEnv) (b : BotRecord) :
    ∃ b1, tickStep os (fun _ => false) sr envf b =
      (b1, (if isDeadRunning os b then [b.id] else []), false) := by
  by_cases h : b.status = BotStatus.running ∧ pidTruthy b.pid = true ∧
      is_process_running os (b.pid.getD 0) = false
  · have hd : isDeadRunning os b = true := decide_eq_true h
    have hupd : ¬((fun (_ : Nat) => false) b.id = true) := by simp
    simp only [tickStep, if_pos h, if_neg hupd, hd, ite_true]
    by_cases hsr : sr b.id = true
    · rw [if_pos hsr]
      exact ⟨_, rfl⟩
    · rw [if_neg hsr]
      by_cases hok : (start_bot (some (markStopped b)) os (envf b.id)).ok = true
      · rw [if_pos hok]
        exact ⟨_, rfl⟩
      · rw [if_neg hok]
        exact ⟨_, rfl⟩
  · have hd : isDeadRunning os b = false := by
      unfold isDeadRunning
      exact decide_eq_false h
    simp only [tickStep, if_neg h, hd, ite_false]
    exact ⟨b, rfl⟩

/-- With no injected `update_bot` exception, one monitor tick calls
`start_bot` once for each dead-running record of the snapshot, in order,
regardless of which `start_bot` calls raise. -/
theorem monitor_calls_eq (os : Nat → ProcQuery) (sr : Nat → Bool)
    (envf : Nat → StartEnv) :
    ∀ bots, (monitor_tick os (fun _ => false) sr envf bots).2 =
      (bots.filter (isDeadRunning os)).map BotRecord.id
  | [] => rfl
  | b :: rest => by
    rcases tickStep_no_abort os sr envf b with ⟨b1, htick⟩
    simp only [monitor_tick, htick, List.filter_cons]
    by_cases hd : isDeadRunning os b = true
    · simp only [hd, ite_true, List.map_cons,
        monitor_calls_eq os sr envf rest]
      rfl
    · have hd2 : isDeadRunning os b = false := Bool.eq_false_iff.mpr hd
      simp only [hd2, ite_false, monitor_calls_eq os sr envf rest]
      rfl

/-- An `update_bot` exception at a dead-running record aborts the whole
tick: the head record keeps its stale `running` row and no bot of the tick
gets a `start_bot` call. -/
theorem monitor_abort_head (os : Nat → ProcQuery) (upd sr : Nat → Bool)
    (envf : Nat → StartEnv) (b : BotRecord) (rest : List BotRecord)
    (hdead : isDeadRunning os b = true) (hupd : upd b.id = true) :
    monitor_tick os upd sr envf (b :: rest) = (b :: rest, []) := by
  have h : b.status = BotStatus.running ∧ pidTruthy b.pid = true ∧
      is_process_running os (b.pid.getD 0) = false := of_decide_eq_true hdead
  simp only [monitor_tick, tickStep, if_pos h, hupd, ite_true]

/-- A record whose status is not `running` (or whose pid is not truthy, or
whose process is alive) is skipped by the monitor step: unchanged, no
`start_bot` call, no abort. -/
theorem tickStep_skip (os : Nat → ProcQuery) (upd sr : Nat → Bool)
    (envf : Nat → StartEnv) (b : BotRecord)
    (h : isDeadRunning os b = false) :
    tickStep os upd sr envf b = (b, [], false) := by
  have h2 : ¬(b.status = BotStatus.running ∧ pidTruthy b.pid = true ∧
      is_process_running os (b.pid.getD 0) = false) := of_decide_eq_false h
  simp only [tickStep, if_neg h2]

/-- Claim C5 counterexample: with two dead-running bots, an exception in the
`update_bot(id, pid=None, status='stopped')` call for the FIRST bot (line
1981 of `main.py`, which is NOT inside the per-bot try of lines 1983-1991)
aborts the tick: the second bot is left with its stale `running` row and
dead pid, and no `start_bot` call is made at all - refuting the claim that
an exception in the record update never prevents the remaining bots from
being checked and reconciled. -/
theorem C5_cex_update_exception_aborts_tick :
    monitor_tick (fun _ => ProcQuery.noSuchProcess) (fun i => i == 1)
        (fun _ => false)
        (fun _ => ⟨true, false, InstallOutcome.ok, 42, none, none, ""⟩)
        [⟨1, BotStatus.running, some 7, false, "/a", "m.py"⟩,
         ⟨2, BotStatus.running, some 8, false, "/b", "m.py"⟩] =
      ([⟨1, BotStatus.running, some 7, false, "/a", "m.py"⟩,
        ⟨2, BotStatus.running, some 8, false, "/b", "m.py"⟩], []) := by
  decide

/-- Claim C5, amended: only the `start_bot` call is inside the per-bot try
of the Crash Monitor.  An exception raised by the restart is caught per-bot
and never prevents the remaining bots in that tick from being checked and
reconciled (every dead-running record still receives its `start_bot` call);
but an exception in the liveness-check/record-update part of a bot's
reconciliation propagates to the tick-level handler and aborts the
remaining bots for that tick. -/
theorem C5_per_bot_isolation_amended (os : Nat → ProcQuery)
    (sr : Nat → Bool) (envf : Nat → StartEnv) :
    (∀ bots, (monitor_tick os (fun _ => false) sr envf bots).2 =
      (bots.filter (isDeadRunning os)).map BotRecord.id) ∧
    (∀ (upd : Nat → Bool) (b : BotRecord) (rest : List BotRecord),
      isDeadRunning os b = true → upd b.id = true →
      monitor_tick os upd sr envf (b :: rest) = (b :: rest, [])) :=
  ⟨fun bots => monitor_calls_eq os sr envf bots,
   fun upd b rest hd hu => monitor_abort_head os upd sr envf b rest hd hu⟩

/-- Witness for the amended C5: a raising `start_bot` on bot 1 still lets
bot 2 be reconciled and restarted, while an update exception on bot 1
aborts the tick. -/
theorem C5_witness :
    (monitor_tick (fun _ => ProcQuery.noSuchProcess) (fun _ => false)
        (fun i => i == 1)
        (fun _ => ⟨true, false, InstallOutcome.ok, 42, none, none, ""⟩)
        [⟨1, BotStatus.running, some 7, false, "/a", "m.py"⟩,
         ⟨2, BotStatus.running, some 8, false, "/b", "m.py"⟩]).2 =
      ([⟨1, BotStatus.running, some 7, false, "/a", "m.py"⟩,
        ⟨2, BotStatus.running, some 8, false, "/b", "m.py"⟩].filter
          (isDeadRunning (fun _ => ProcQuery.noSuchProcess))).map
        BotRecord.id ∧
    monitor_tick (fun _ => ProcQuery.noSuchProcess) (fun i => i == 1)
        (fun i => i == 1)
        (fun _ => ⟨true, false, InstallOutcome.ok, 42, none, none, ""⟩)
        [⟨1, BotStatus.running, some 7, false, "/a", "m.py"⟩,
         ⟨2, BotStatus.running, some 8, false, "/b", "m.py"⟩] =
      ([⟨1, BotStatus.running, some 7, false, "/a", "m.py"⟩,
        ⟨2, BotStatus.running, some 8, false, "/b", "m.py"⟩], []) := by
  have H := C5_per_bot_isolation_amended (fun _ => ProcQuery.noSuchProcess)
    (fun i => i == 1)
    (fun _ => ⟨true, false, InstallOutcome.ok, 42, none, none, ""⟩)
  exact ⟨H.1 _, H.2 (fun i => i == 1)
    ⟨1, BotStatus.running, some 7, false, "/a", "m.py"⟩
    [⟨2, BotStatus.running, some 8, false, "/b", "m.py"⟩] (by decide) rfl⟩

theorem count_eq_one_of_nodup_mem {l : List Nat} {a : Nat} (hnd : l.Nodup)
    (ha : a ∈ l) : l.count a = 1 := by
  induction l with
  | nil => cases ha
  | cons b t ih =>
    rcases List.mem_cons.mp ha with rfl | hat
    · rw [List.count_cons_self, List.count_eq_zero.mpr (List.nodup_cons.mp hnd).1]
    · have hba : a ≠ b := by
        rintro rfl
        exact (List.nodup_cons.mp hnd).1 hat
      rw [List.count_cons_of_ne hba]
      exact ih (List.nodup_cons.mp hnd).2 hat

/-- Claim C4: in one Crash Monitor tick without injected exceptions, every
record with status `running` and a dead pid is reconciled to
`pid=null, status=stopped` and then given exactly one `start_bot` call; a
returned start failure leaves the record with status `error` and a null pid
(so a later tick skips it, by the final conjunct); a successful start leaves
the record exactly as `start_bot` wrote it (normally `running`); and any
record that is not dead-running is skipped untouched with no `start_bot`
call. -/
theorem C4_monitor_single_restart (os : Nat → ProcQuery)
    (envf : Nat → StartEnv) (bots : List BotRecord) (b : BotRecord)
    (hnd : (bots.map BotRecord.id).Nodup) (hb : b ∈ bots)
    (hdead : isDeadRunning os b = true) :
    ((monitor_tick os (fun _ => false) (fun _ => false) envf bots).2.count
      b.id = 1) ∧
    ((tickStep os (fun _ => false) (fun _ => false) envf b).2.1 = [b.id]) ∧
    ((start_bot (some (markStopped b)) os (envf b.id)).ok = false →
      (tickStep os (fun _ => false) (fun _ => false) envf b).1.status =
        BotStatus.error ∧
      (tickStep os (fun _ => false) (fun _ => false) envf b).1.pid = none) ∧
    ((start_bot (some (markStopped b)) os (envf b.id)).ok = true →
      (tickStep os (fun _ => false) (fun _ => false) envf b).1 =
        (start_bot (some (markStopped b)) os (envf b.id)).record.getD
          (markStopped b)) ∧
    (∀ c : BotRecord, isDeadRunning os c = false →
      tickStep os (fun _ => false) (fun _ => false) envf c = (c, [], false)) := by
  have h : b.status = BotStatus.running ∧ pidTruthy b.pid = true ∧
      is_process_running os (b.pid.getD 0) = false := of_decide_eq_true hdead
  have hff : ¬((fun (_ : Nat) => false) b.id = true) := by simp
  have hstep : tickStep os (fun _ => false) (fun _ => false) envf b =
      (if (start_bot (some (markStopped b)) os (envf b.id)).ok = true then
        ((start_bot (some (markStopped b)) os (envf b.id)).record.getD
          (markStopped b), [b.id], false)
      else
        ({ (start_bot (some (markStopped b)) os (envf b.id)).record.getD
            (markStopped b) with status := BotStatus.error }, [b.id], false)) := by
    simp only [tickStep, if_pos h, if_neg hff]
  refine ⟨?_, ?_, ?_, ?_, ?_⟩
  · rw [monitor_calls_eq os (fun _ => false) envf bots]
    have hsub : ((bots.filter (isDeadRunning os)).map BotRecord.id).Sublist
        (bots.map BotRecord.id) :=
      (List.filter_sublist bots).map BotRecord.id
    have hnodup := hsub.nodup hnd
    have hmem : b.id ∈ (bots.filter (isDeadRunning os)).map BotRecord.id :=
      List.mem_map.mpr ⟨b, List.mem_filter.mpr ⟨hb, hdead⟩, rfl⟩
    exact count_eq_one_of_nodup_mem hnodup hmem
  · rw [hstep]
    by_cases hok : (start_bot (some (markStopped b)) os (envf b.id)).ok = true
    · rw [if_pos hok]
    · rw [if_neg hok]
  · intro hfail
    have hok2 : ¬((start_bot (some (markStopped b)) os (envf b.id)).ok = true) := by
      rw [hfail]; simp
    rw [hstep, if_neg hok2]
    refine ⟨rfl, ?_⟩
    rcases start_record_of_pid_none (markStopped b) os (envf b.id) rfl with
      ⟨r2, hr2, -, hcase⟩
    rcases hcase with ⟨hok3, -, -⟩ | ⟨-, hpid2⟩
    · exact absurd hok3 hok2
    · simp only [hr2, Option.getD_some]
      exact hpid2
  · intro hok
    rw [hstep, if_pos hok]
  · intro c hc
    exact tickStep_skip os (fun _ => false) (fun _ => false) envf c hc

/-- Witness for C4: a single dead-running bot whose restart fails because
its start file is missing ends the tick with status `error`, null pid, and
one `start_bot` call. -/
theorem C4_witness :
    ((monitor_tick (fun _ => ProcQuery.noSuchProcess) (fun _ => false)
        (fun _ => false)
        (fun _ => ⟨false, false, InstallOutcome.ok, 42, none, none, ""⟩)
        [⟨1, BotStatus.running, some 7, false, "/a", "m.py"⟩]).2.count 1 = 1) ∧
    ((tickStep (fun _ => ProcQuery.noSuchProcess) (fun _ => false)
        (fun _ => false)
        (fun _ => ⟨false, false, InstallOutcome.ok, 42, none, none, ""⟩)
        ⟨1, BotStatus.running, some 7, false, "/a", "m.py"⟩).1.status =
      BotStatus.error ∧
     (tickStep (fun _ => ProcQuery.noSuchProcess) (fun _ => false)
        (fun _ => false)
        (fun _ => ⟨false, false, InstallOutcome.ok, 42, none, none, ""⟩)
        ⟨1, BotStatus.running, some 7, false, "/a", "m.py"⟩).1.pid = none) ∧
    tickStep (fun _ => ProcQuery.noSuchProcess) (fun _ => false)
        (fun _ => false)
        (fun _ => ⟨false, false, InstallOutcome.ok, 42, none, none, ""⟩)
        ⟨2, BotStatus.stopped, none, false, "/b", "m.py"⟩ =
      (⟨2, BotStatus.stopped, none, false, "/b", "m.py"⟩, [], false) := by
  have H := C4_monitor_single_restart (fun _ => ProcQuery.noSuchProcess)
    (fun _ => ⟨false, false, InstallOutcome.ok, 42, none, none, ""⟩)
    [⟨1, BotStatus.running, some 7, false, "/a", "m.py"⟩]
    ⟨1, BotStatus.running, some 7, false, "/a", "m.py"⟩
    (by decide) (List.mem_singleton.mpr rfl) (by decide)
  exact ⟨H.1, H.2.2.1 (by decide), H.2.2.2.2 _ (by decide)⟩

theorem wantsAutostart_iff (b : BotRecord) :
    wantsAutostart b = true ↔
      (b.autoStart = true ∧ b.status = BotStatus.stopped) := by
  simp [wantsAutostart]

theorem dbGet_id_eq (db : List BotRecord) (i : Nat) (cur : BotRecord)
    (h : dbGet db i = some cur) : cur.id = i := by
  induction db with
  | nil => cases h
  | cons b t ih =>
    by_cases hbi : (b.id == i) = true
    · simp only [dbGet, hbi, ite_true] at h
      injection h with h
      subst h
      exact beq_iff_eq.mp hbi
    · simp only [dbGet, Bool.eq_false_iff.mpr hbi, Bool.false_eq_true, ite_false] at h
      exact ih h

theorem dbGet_mem (db : List BotRecord) (i : Nat) (cur : BotRecord)
    (h : dbGet db i = some cur) : cur ∈ db := by
  induction db with
  | nil => cases h
  | cons b t ih =>
    by_cases hbi : (b.id == i) = true
    · simp only [dbGet, hbi, ite_true] at h
      injection h with h
      subst h
      exact List.mem_cons_self b t
    · simp only [dbGet, Bool.eq_false_iff.mpr hbi, Bool.false_eq_true, ite_false] at h
      exact List.mem_cons_of_mem b (ih h)

theorem dbGet_dbSet_ne (db : List BotRecord) (i j : Nat) (r : BotRecord)
    (hr : r.id = i) (hij : j ≠ i) : dbGet (dbSet db i r) j = dbGet db j := by
  induction db with
  | nil => rfl
  | cons b t ih =>
    simp only [dbSet, dbGet]
    by_cases hbi : (b.id == i) = true
    · have h2 : (r.id == j) = false := by
        rw [hr]
        exact beq_eq_false_iff_ne.mpr fun h => hij h.symm
      have h3 : (b.id == j) = false := by
        rw [beq_iff_eq.mp hbi]
        exact beq_eq_false_iff_ne.mpr fun h => hij h.symm
      simp only [hbi, ite_true, h2, h3, Bool.false_eq_true, ite_false, ih]
    · simp only [Bool.eq_false_iff.mpr hbi, Bool.false_eq_true, ite_false, ih]

theorem dbGet_dbSet_self (db : List BotRecord) (i : Nat) (r : BotRecord)
    (hr : r.id = i) (hsome : (dbGet db i).isSome = true) :
    dbGet (dbSet db i r) i = some r := by
  induction db with
  | nil => cases hsome
  | cons b t ih =>
    simp only [dbSet, dbGet]
    by_cases hbi : (b.id == i) = true
    · simp only [hbi, ite_true, beq_iff_eq.mpr hr]
    · have h1 : (b.id == i) = false := Bool.eq_false_iff.mpr hbi
      simp only [dbGet, h1, Bool.false_eq_true, ite_false] at hsome
      simp only [h1, Bool.false_eq_true, ite_false, ih hsome]

theorem dbGet_self_of_nodup (db : List BotRecord) (b : BotRecord)
    (hnd : (db.map BotRecord.id).Nodup) (hb : b ∈ db) :
    dbGet db b.id = some b := by
  induction db with
  | nil => cases hb
  | cons c t ih =>
    rcases List.mem_cons.mp hb with rfl | hbt
    · simp [dbGet]
    · have hct : c.id ∉ t.map BotRecord.id :=
        (List.nodup_cons.mp (by simpa using hnd)).1
      have hne : (c.id == b.id) = false := by
        apply beq_eq_false_iff_ne.mpr
        intro h
        exact hct (h ▸ List.mem_map.mpr ⟨b, hbt, rfl⟩)
      simp only [dbGet, hne, Bool.false_eq_true, ite_false]
      exact ih (List.nodup_cons.mp (by simpa using hnd)).2 hbt

theorem dbGet_map (f : BotRecord → BotRecord)
    (hf : ∀ b, (f b).id = b.id) (db : List BotRecord) (i : Nat) :
    dbGet (db.map f) i = (dbGet db i).map f := by
  induction db with
  | nil => rfl
  | cons b t ih =>
    simp only [List.map_cons, dbGet, hf b]
    by_cases hbi : (b.id == i) = true
    · rw [hbi]
      rfl
    · simp only [Bool.eq_false_iff.mpr hbi, Bool.false_eq_true, ite_false, ih]

theorem dbSet_mem (db : List BotRecord) (i : Nat) (r e : BotRecord)
    (he : e ∈ dbSet db i r) : e = r ∨ e ∈ db := by
  induction db with
  | nil => cases he
  | cons b t ih =>
    simp only [dbSet] at he
    rcases List.mem_cons.mp he with he1 | he2
    · by_cases hbi : (b.id == i) = true
      · rw [hbi] at he1
        simp only [ite_true] at he1
        exact Or.inl he1
      · rw [Bool.eq_false_iff.mpr hbi] at he1
        simp only [Bool.false_eq_true, ite_false] at he1
        exact Or.inr (he1 ▸ List.mem_cons_self b t)
    · rcases ih he2 with h | h
      · exact Or.inl h
      · exact Or.inr (List.mem_cons_of_mem b h)

theorem applyStart_eq (os : Nat → ProcQuery) (envf : Nat → StartEnv)
    (db : List BotRecord) (i : Nat) (cur r1 : BotRecord)
    (hcur : dbGet db i = some cur)
    (hr1 : (start_bot (some cur) os (envf i)).record = some r1) :
    applyStart os envf db i = dbSet db i r1 := by
  unfold applyStart
  rw [hcur]
  dsimp only
  rw [hr1]

theorem applyStart_get_ne (os : Nat → ProcQuery) (envf : Nat → StartEnv)
    (db : List BotRecord) (i j : Nat) (hij : j ≠ i) :
    dbGet (applyStart os envf db i) j = dbGet db j := by
  unfold applyStart
  cases hcur : dbGet db i with
  | none => rfl
  | some cur =>
    dsimp only
    rcases start_record_some_id cur os (envf i) with ⟨r1, hr1, hid1⟩
    rw [hr1]
    exact dbGet_dbSet_ne db i j r1 (hid1.trans (dbGet_id_eq db i cur hcur)) hij

theorem applyStart_get_self (os : Nat → ProcQuery) (envf : Nat → StartEnv)
    (db : List BotRecord) (i : Nat) (cur : BotRecord)
    (hcur : dbGet db i = some cur) :
    dbGet (applyStart os envf db i) i =
      (start_bot (some cur) os (envf i)).record := by
  unfold applyStart
  rw [hcur]
  dsimp only
  rcases start_record_some_id cur os (envf i) with ⟨r1, hr1, hid1⟩
  rw [hr1]
  dsimp only
  rw [dbGet_dbSet_self db i r1 (hid1.trans (dbGet_id_eq db i cur hcur))
    (by rw [hcur]; rfl)]

theorem autostart_calls (os : Nat → ProcQuery) (sr : Nat → Bool)
    (envf : Nat → StartEnv) :
    ∀ (pend db : List BotRecord),
      (autostartPhase os sr envf pend db).2 =
        (pend.filter wantsAutostart).map BotRecord.id
  | [], _ => rfl
  | b :: rest, db => by
    by_cases hc : b.autoStart = true ∧ b.status = BotStatus.stopped
    · have hw : wantsAutostart b = true := (wantsAutostart_iff b).mpr hc
      simp only [autostartPhase, if_pos hc, List.filter_cons, hw, ite_true,
        List.map_cons, autostart_calls os sr envf rest]
    · have hw : wantsAutostart b = false := by
        rw [Bool.eq_false_iff]
        intro ht
        exact hc ((wantsAutostart_iff b).mp ht)
      simp only [autostartPhase, if_neg hc, List.filter_cons, hw,
        Bool.false_eq_true, ite_false, autostart_calls os sr envf rest]

theorem autostart_untouched (os : Nat → ProcQuery) (sr : Nat → Bool)
    (envf : Nat → StartEnv) :
    ∀ (pend db : List BotRecord) (j : Nat),
      (∀ b ∈ pend, wantsAutostart b = true → sr b.id = false → b.id ≠ j) →
      dbGet (autostartPhase os sr envf pend db).1 j = dbGet db j
  | [], _, _, _ => rfl
  | b :: rest, db, j, hj => by
    have hjrest : ∀ b2 ∈ rest, wantsAutostart b2 = true → sr b2.id = false →
        b2.id ≠ j := fun b2 hb2 => hj b2 (List.mem_cons_of_mem b hb2)
    by_cases hc : b.autoStart = true ∧ b.status = BotStatus.stopped
    · simp only [autostartPhase, if_pos hc]
      by_cases hsr : sr b.id = true
      · rw [if_pos hsr]
        exact autostart_untouched os sr envf rest db j hjrest
      · rw [if_neg hsr]
        have hne : b.id ≠ j := by
          intro h
          exact hj b (List.mem_cons_self b rest) ((wantsAutostart_iff b).mpr hc)
            (Bool.eq_false_iff.mpr hsr) h
        rw [autostart_untouched os sr envf rest _ j hjrest]
        exact applyStart_get_ne os envf db b.id j (fun h => hne h.symm)
    · simp only [autostartPhase, if_neg hc]
      exact autostart_untouched os sr envf rest db j hjrest

theorem autostart_result (os : Nat → ProcQuery) (sr : Nat → Bool)
    (envf : Nat → StartEnv) :
    ∀ (pend db : List BotRecord) (b : BotRecord),
      (pend.map BotRecord.id).Nodup → b ∈ pend →
      wantsAutostart b = true → sr b.id = false →
      (∀ b2 ∈ pend, wantsAutostart b2 = true → sr b2.id = false →
        dbGet db b2.id = some b2) →
      dbGet (autostartPhase os sr envf pend db).1 b.id =
        (start_bot (some b) os (envf b.id)).record
  | [], _, b, _, hb, _, _, _ => absurd hb (List.not_mem_nil b)
  | c :: rest, db, b, hnd, hb, hw, hsr, hinv => by
    rcases List.mem_cons.mp hb with rfl | hbrest
    · have hc : b.autoStart = true ∧ b.status = BotStatus.stopped :=
        (wantsAutostart_iff b).mp hw
      have hsr2 : ¬(sr b.id = true) := by rw [hsr]; simp
      simp only [autostartPhase, if_pos hc, if_neg hsr2]
      have hcur : dbGet db b.id = some b :=
        hinv b (List.mem_cons_self b rest) hw hsr
      have hunt : ∀ b2 ∈ rest, wantsAutostart b2 = true → sr b2.id = false →
          b2.id ≠ b.id := by
        intro b2 hb2 _ _ h
        have hbn : b.id ∉ rest.map BotRecord.id :=
          (List.nodup_cons.mp (by simpa using hnd)).1
        exact hbn (h ▸ List.mem_map.mpr ⟨b2, hb2, rfl⟩)
      rw [autostart_untouched os sr envf rest _ b.id hunt]
      exact applyStart_get_self os envf db b.id b hcur
    · have hndr : (rest.map BotRecord.id).Nodup :=
        (List.nodup_cons.mp (by simpa using hnd)).2
      by_cases hcC : c.autoStart = true ∧ c.status = BotStatus.stopped
      · by_cases hsrc : sr c.id = true
        · simp only [autostartPhase, if_pos hcC, if_pos hsrc]
          exact autostart_result os sr envf rest db b hndr hbrest hw hsr
            (fun b2 hb2 => hinv b2 (List.mem_cons_of_mem c hb2))
        · simp only [autostartPhase, if_pos hcC, if_neg hsrc]
          have hinv2 : ∀ b2 ∈ rest, wantsAutostart b2 = true →
              sr b2.id = false →
              dbGet (applyStart os envf db c.id) b2.id = some b2 := by
            intro b2 hb2 hw2 hsr2
            have hne : b2.id ≠ c.id := by
              intro h
              have hcn : c.id ∉ rest.map BotRecord.id :=
                (List.nodup_cons.mp (by simpa using hnd)).1
              exact hcn (h ▸ List.mem_map.mpr ⟨b2, hb2, rfl⟩)
            rw [applyStart_get_ne os envf db c.id b2.id hne]
            exact hinv b2 (List.mem_cons_of_mem c hb2) hw2 hsr2
          exact autostart_result os sr envf rest _ b hndr hbrest hw hsr hinv2
      · simp only [autostartPhase, if_neg hcC]
        exact autostart_result os sr envf rest db b hndr hbrest hw hsr
          (fun b2 hb2 => hinv b2 (List.mem_cons_of_mem c hb2))

theorem autostart_pidInv (os : Nat → ProcQuery) (sr : Nat → Bool)
    (envf : Nat → StartEnv) :
    ∀ (pend db : List BotRecord),
      (pend.map BotRecord.id).Nodup →
      (∀ b2 ∈ pend, wantsAutostart b2 = true → sr b2.id = false →
        dbGet db b2.id = some b2) →
      (∀ e ∈ db, pidInv e = true) →
      ∀ e ∈ (autostartPhase os sr envf pend db).1, pidInv e = true
  | [], db, _, _, hdb => fun e he => hdb e he
  | c :: rest, db, hnd, hinv, hdb => by
    have hndr : (rest.map BotRecord.id).Nodup :=
      (List.nodup_cons.mp (by simpa using hnd)).2
    by_cases hcC : c.autoStart = true ∧ c.status = BotStatus.stopped
    · by_cases hsrc : sr c.id = true
      · intro e he
        simp only [autostartPhase, if_pos hcC, if_pos hsrc] at he
        exact autostart_pidInv os sr envf rest db hndr
          (fun b2 hb2 => hinv b2 (List.mem_cons_of_mem c hb2)) hdb e he
      · intro e he
        have hsrf : sr c.id = false := Bool.eq_false_iff.mpr hsrc
        have hw : wantsAutostart c = true := (wantsAutostart_iff c).mpr hcC
        have hcur : dbGet db c.id = some c :=
          hinv c (List.mem_cons_self c rest) hw hsrf
        rcases start_record_some_id c os (envf c.id) with ⟨r1, hr1, hid1⟩
        have happ : applyStart os envf db c.id = dbSet db c.id r1 :=
          applyStart_eq os envf db c.id c r1 hcur hr1
        simp only [autostartPhase, if_pos hcC, if_neg hsrc, happ] at he
        have hpidc : c.pid = none :=
          pid_none_of_stopped_inv c (hdb c (dbGet_mem db c.id c hcur)) hcC.2
        have hr1inv : pidInv r1 = true :=
          start_preserves_pidInv c os (envf c.id) r1
            (hdb c (dbGet_mem db c.id c hcur)) (Or.inl hpidc) hr1
        have hdb2 : ∀ e2 ∈ dbSet db c.id r1, pidInv e2 = true := by
          intro e2 he2
          rcases dbSet_mem db c.id r1 e2 he2 with rfl | h
          · exact hr1inv
          · exact hdb e2 h
        have hinv2 : ∀ b2 ∈ rest, wantsAutostart b2 = true →
            sr b2.id = false → dbGet (dbSet db c.id r1) b2.id = some b2 := by
          intro b2 hb2 hw2 hsr2
          have hne : b2.id ≠ c.id := by
            intro h
            have hcn : c.id ∉ rest.map BotRecord.id :=
              (List.nodup_cons.mp (by simpa using hnd)).1
            exact hcn (h ▸ List.mem_map.mpr ⟨b2, hb2, rfl⟩)
          rw [dbGet_dbSet_ne db c.id b2.id r1 hid1 hne]
          exact hinv b2 (List.mem_cons_of_mem c hb2) hw2 hsr2
        exact autostart_pidInv os sr envf rest _ hndr hinv2 hdb2 e he
    · intro e he
      simp only [autostartPhase, if_neg hcC] at he
      exact autostart_pidInv os sr envf rest db hndr
        (fun b2 hb2 => hinv b2 (List.mem_cons_of_mem c hb2)) hdb e he

theorem reconcileOne_id (os : Nat → ProcQuery) (b : BotRecord) :
    (reconcileOne os b).id = b.id := by
  unfold reconcileOne
  split <;> rfl

theorem reconcileOne_pidInv (os : Nat → ProcQuery) (b : BotRecord)
    (hb : pidInv b = true) : pidInv (reconcileOne os b) = true := by
  unfold reconcileOne
  split
  · exact pidInv_markStopped_bool b
  · exact hb

theorem reconcileOne_of_not_running (os : Nat → ProcQuery) (b : BotRecord)
    (hs : b.status ≠ BotStatus.running) : reconcileOne os b = b := by
  unfold reconcileOne
  rw [if_neg]
  rintro ⟨h1, -, -⟩
  exact hs h1

theorem reconcileOne_of_dead (os : Nat → ProcQuery) (b : BotRecord)
    (hd : isDeadRunning os b = true) : reconcileOne os b = markStopped b :=
  if_pos (of_decide_eq_true hd)

/-- Claim C8 counterexample: a record with `autoStart = true` showing
`running` with a dead pid is reconciled to `stopped` by the first loop of
`restore_bot_states`, but the auto-start loop re-reads the stale snapshot
(status still `running` there), so `start_bot` is NOT invoked for it: the
call list is empty and the bot stays `stopped`, refuting "including those it
just reconciled". -/
theorem C8_cex_reconciled_bot_not_autostarted :
    restore_bot_states (fun _ => ProcQuery.noSuchProcess) (fun _ => false)
        (fun _ => ⟨true, false, InstallOutcome.ok, 42, none, none, ""⟩)
        [⟨1, BotStatus.running, some 7, true, "/a", "m.py"⟩] =
      ([⟨1, BotStatus.stopped, none, true, "/a", "m.py"⟩], []) := by
  decide

/-- Claim C8, amended: the Startup Restorer reconciles every dead
`running` snapshot record to `stopped` with no restart attempt, then
invokes `start_bot` exactly for the records whose status IN THE SNAPSHOT
taken at entry was already `stopped` with `autoStart` set - excluding the
freshly reconciled ones, which are skipped because the second loop re-reads
the stale snapshot - and each selected record's final row is exactly what
its own `start_bot` call produced, so a failure to start one bot does not
affect the others. -/
theorem C8_restore_amended (os : Nat → ProcQuery) (sr : Nat → Bool)
    (envf : Nat → StartEnv) (bots : List BotRecord)
    (hnd : (bots.map BotRecord.id).Nodup) :
    ((restore_bot_states os sr envf bots).2 =
      (bots.filter wantsAutostart).map BotRecord.id) ∧
    (∀ b ∈ bots, wantsAutostart b = true → sr b.id = false →
      dbGet (restore_bot_states os sr envf bots).1 b.id =
        (start_bot (some b) os (envf b.id)).record) ∧
    (∀ b ∈ bots, b.status = BotStatus.running →
      b.id ∉ (restore_bot_states os sr envf bots).2 ∧
      (isDeadRunning os b = true →
        dbGet (restore_bot_states os sr envf bots).1 b.id =
          some (markStopped b))) := by
  have hcalls : (restore_bot_states os sr envf bots).2 =
      (bots.filter wantsAutostart).map BotRecord.id :=
    autostart_calls os sr envf bots (reconcilePhase os bots)
  refine ⟨hcalls, ?_, ?_⟩
  · intro b hb hw hsr
    show dbGet (autostartPhase os sr envf bots (reconcilePhase os bots)).1
        b.id = (start_bot (some b) os (envf b.id)).record
    apply autostart_result os sr envf bots (reconcilePhase os bots) b hnd hb
      hw hsr
    intro b2 hb2 hw2 hsr2
    show dbGet (bots.map (reconcileOne os)) b2.id = some b2
    rw [dbGet_map (reconcileOne os) (reconcileOne_id os) bots b2.id,
      dbGet_self_of_nodup bots b2 hnd hb2]
    have hs2 : b2.status = BotStatus.stopped := ((wantsAutostart_iff b2).mp hw2).2
    rw [Option.map_some']
    rw [reconcileOne_of_not_running os b2 (by rw [hs2]; intro h; cases h)]
  · intro b hb hrun
    have huniq : ∀ b2 ∈ bots, wantsAutostart b2 = true → b2.id ≠ b.id := by
      intro b2 hb2 hw2 h
      have h1 := dbGet_self_of_nodup bots b hnd hb
      have h2 := dbGet_self_of_nodup bots b2 hnd hb2
      rw [h, h1] at h2
      injection h2 with h2
      have hs2 : b2.status = BotStatus.stopped :=
        ((wantsAutostart_iff b2).mp hw2).2
      rw [← h2, hrun] at hs2
      cases hs2
    constructor
    · intro hmem
      rw [hcalls] at hmem
      rcases List.mem_map.mp hmem with ⟨b2, hb2f, hid⟩
      rcases List.mem_filter.mp hb2f with ⟨hb2, hw2⟩
      exact huniq b2 hb2 hw2 hid
    · intro hd
      show dbGet (autostartPhase os sr envf bots (reconcilePhase os bots)).1
          b.id = some (markStopped b)
      rw [autostart_untouched os sr envf bots _ b.id
        (fun b2 hb2 hw2 _ => huniq b2 hb2 hw2)]
      show dbGet (bots.map (reconcileOne os)) b.id = some (markStopped b)
      rw [dbGet_map (reconcileOne os) (reconcileOne_id os) bots b.id,
        dbGet_self_of_nodup bots b hnd hb, Option.map_some',
        reconcileOne_of_dead os b hd]

/-- Witness for the amended C8: three snapshot-stopped autoStart bots where
the second one's start fails (missing start file); all three get their
`start_bot` call and the first and third end up `running`. -/
theorem C8_witness :
    (restore_bot_states (fun _ => ProcQuery.noSuchProcess) (fun _ => false)
        (fun i => ⟨i != 2, false, InstallOutcome.ok, 42, none, none, ""⟩)
        [⟨1, BotStatus.stopped, none, true, "/1", "m.py"⟩,
         ⟨2, BotStatus.stopped, none, true, "/2", "m.py"⟩,
         ⟨3, BotStatus.stopped, none, true, "/3", "m.py"⟩]).2 = [1, 2, 3] ∧
    dbGet (restore_bot_states (fun _ => ProcQuery.noSuchProcess)
        (fun _ => false)
        (fun i => ⟨i != 2, false, InstallOutcome.ok, 42, none, none, ""⟩)
        [⟨1, BotStatus.stopped, none, true, "/1", "m.py"⟩,
         ⟨2, BotStatus.stopped, none, true, "/2", "m.py"⟩,
         ⟨3, BotStatus.stopped, none, true, "/3", "m.py"⟩]).1 1 =
      (start_bot (some ⟨1, BotStatus.stopped, none, true, "/1", "m.py"⟩)
        (fun _ => ProcQuery.noSuchProcess)
        ⟨(1 : Nat) != 2, false, InstallOutcome.ok, 42, none, none, ""⟩).record ∧
    dbGet (restore_bot_states (fun _ => ProcQuery.noSuchProcess)
        (fun _ => false)
        (fun i => ⟨i != 2, false, InstallOutcome.ok, 42, none, none, ""⟩)
        [⟨1, BotStatus.stopped, none, true, "/1", "m.py"⟩,
         ⟨2, BotStatus.stopped, none, true, "/2", "m.py"⟩,
         ⟨3, BotStatus.stopped, none, true, "/3", "m.py"⟩]).1 3 =
      (start_bot (some ⟨3, BotStatus.stopped, none, true, "/3", "m.py"⟩)
        (fun _ => ProcQuery.noSuchProcess)
        ⟨(3 : Nat) != 2, false, InstallOutcome.ok, 42, none, none, ""⟩).record ∧
    ((start_bot (some ⟨1, BotStatus.stopped, none, true, "/1", "m.py"⟩)
        (fun _ => ProcQuery.noSuchProcess)
        ⟨(1 : Nat) != 2, false, InstallOutcome.ok, 42, none, none, ""⟩).record.map
      BotRecord.status = some BotStatus.running) ∧
    ((start_bot (some ⟨2, BotStatus.stopped, none, true, "/2", "m.py"⟩)
        (fun _ => ProcQuery.noSuchProcess)
        ⟨(2 : Nat) != 2, false, InstallOutcome.ok, 42, none, none, ""⟩).ok =
      false) ∧
    ((start_bot (some ⟨3, BotStatus.stopped, none, true, "/3", "m.py"⟩)
        (fun _ => ProcQuery.noSuchProcess)
        ⟨(3 : Nat) != 2, false, InstallOutcome.ok, 42, none, none, ""⟩).record.map
      BotRecord.status = some BotStatus.running) := by
  have H := C8_restore_amended (fun _ => ProcQuery.noSuchProcess)
    (fun _ => false)
    (fun i => ⟨i != 2, false, InstallOutcome.ok, 42, none, none, ""⟩)
    [⟨1, BotStatus.stopped, none, true, "/1", "m.py"⟩,
     ⟨2, BotStatus.stopped, none, true, "/2", "m.py"⟩,
     ⟨3, BotStatus.stopped, none, true, "/3", "m.py"⟩] (by decide)
  refine ⟨?_,
    H.2.1 ⟨1, BotStatus.stopped, none, true, "/1", "m.py"⟩ (by decide)
      (by decide) rfl,
    H.2.1 ⟨3, BotStatus.stopped, none, true, "/3", "m.py"⟩ (by decide)
      (by decide) rfl, by decide, by decide, by decide⟩
  rw [H.1]
  decide

theorem monitor_tick_pidInv (os : Nat → ProcQuery) (upd sr : Nat → Bool)
    (envf : Nat → StartEnv) :
    ∀ bots, (∀ b ∈ bots, pidInv b = true) →
      ∀ e ∈ (monitor_tick os upd sr envf bots).1, pidInv e = true
  | [] => by
    intro _ e he
    simp only [monitor_tick] at he
    cases he
  | b :: rest => by
    intro hb e he
    rcases htick : tickStep os upd sr envf b with ⟨b1, cs, ab⟩
    have hb1 : pidInv b1 = true := by
      have h := tickStep_pidInv os upd sr envf b (hb b (List.mem_cons_self b rest))
      rw [htick] at h
      exact h
    cases ab with
    | true =>
      simp only [monitor_tick, htick] at he
      rcases List.mem_cons.mp he with rfl | he2
      · exact hb1
      · exact hb e (List.mem_cons_of_mem b he2)
    | false =>
      simp only [monitor_tick, htick] at he
      rcases List.mem_cons.mp he with rfl | he2
      · exact hb1
      · exact monitor_tick_pidInv os upd sr envf rest
          (fun c hc => hb c (List.mem_cons_of_mem b hc)) e he2

theorem reconcile_get_stopped (os : Nat → ProcQuery) (bots : List BotRecord)
    (b2 : BotRecord) (hnd : (bots.map BotRecord.id).Nodup) (hb2 : b2 ∈ bots)
    (hs2 : b2.status = BotStatus.stopped) :
    dbGet (reconcilePhase os bots) b2.id = some b2 := by
  show dbGet (bots.map (reconcileOne os)) b2.id = some b2
  rw [dbGet_map (reconcileOne os) (reconcileOne_id os) bots b2.id,
    dbGet_self_of_nodup bots b2 hnd hb2, Option.map_some',
    reconcileOne_of_not_running os b2 (by rw [hs2]; intro h; cases h)]

/-- Claim C2, amended: the invariant `pid != null` implies
`status in {starting, installing, running}` is preserved by `stop_bot`, by
the status-query reconciliation (`get_bot_process_info`), by every Crash
Monitor tick, and by the Startup Restorer (distinct ids), and by
`start_bot` provided it is not entered with a stale non-null pid; the
exception, exhibited by the counterexample, is the dependency-install
failure path of `start_bot`, which sets `error_startup` without clearing a
stale pid. -/
theorem C2_pid_status_invariant_amended :
    (∀ (b : BotRecord) (os : Nat → ProcQuery) (env : StartEnv)
        (r1 : BotRecord), pidInv b = true →
      (b.pid = none ∨ (b.status = BotStatus.running ∧ pidTruthy b.pid = true ∧
        is_process_running os (b.pid.getD 0) = true)) →
      (start_bot (some b) os env).record = some r1 → pidInv r1 = true) ∧
    (∀ (b : BotRecord) (os : Nat → ProcQuery) (env : StopEnv)
        (cache : CpuCache) (r1 : BotRecord), pidInv b = true →
      (stop_bot (some b) os env cache).record = some r1 → pidInv r1 = true) ∧
    (∀ (b : BotRecord) (os : Nat → ProcQuery) (env : InfoEnv)
        (cache : CpuCache) (r1 : BotRecord), pidInv b = true →
      (get_bot_process_info (some b) os env cache).record = some r1 →
      pidInv r1 = true) ∧
    (∀ (os : Nat → ProcQuery) (upd sr : Nat → Bool) (envf : Nat → StartEnv)
        (bots : List BotRecord), (∀ b ∈ bots, pidInv b = true) →
      ∀ e ∈ (monitor_tick os upd sr envf bots).1, pidInv e = true) ∧
    (∀ (os : Nat → ProcQuery) (sr : Nat → Bool) (envf : Nat → StartEnv)
        (bots : List BotRecord), (bots.map BotRecord.id).Nodup →
      (∀ b ∈ bots, pidInv b = true) →
      ∀ e ∈ (restore_bot_states os sr envf bots).1, pidInv e = true) := by
  refine ⟨start_preserves_pidInv, ?_, ?_, monitor_tick_pidInv, ?_⟩
  · intro b os env cache r1 hb hr
    rcases stop_record_cases b os env cache with h | h <;> rw [h] at hr <;>
      injection hr with hr
    · exact hr ▸ hb
    · exact hr ▸ pidInv_markStopped_bool b
  · intro b os env cache r1 hb hr
    rcases info_record_cases b os env cache with h | h <;> rw [h] at hr <;>
      injection hr with hr
    · exact hr ▸ hb
    · exact hr ▸ pidInv_markStopped_bool b
  · intro os sr envf bots hnd hinv
    apply autostart_pidInv os sr envf bots (reconcilePhase os bots) hnd
    · intro b2 hb2 hw2 _
      exact reconcile_get_stopped os bots b2 hnd hb2
        ((wantsAutostart_iff b2).mp hw2).2
    · intro e he
      rcases List.mem_map.mp he with ⟨b0, hb0, rfl⟩
      exact reconcileOne_pidInv os b0 (hinv b0 hb0)

/-- Witness for the amended C2: a failed install on a record whose pid was
null yields `error_startup` with a null pid, satisfying the invariant. -/
theorem C2_witness :
    pidInv ⟨1, BotStatus.error_startup, none, false, "/a", "m.py"⟩ = true :=
  C2_pid_status_invariant_amended.1
    ⟨1, BotStatus.stopped, none, false, "/a", "m.py"⟩
    (fun _ => ProcQuery.noSuchProcess)
    ⟨true, true, InstallOutcome.fail, 42, none, none, ""⟩
    ⟨1, BotStatus.error_startup, none, false, "/a", "m.py"⟩
    (by decide) (Or.inl rfl) (by decide)
